import Mathlib

/-!
# TimeScope background tracker — shallow embedding

Shallow embedding of the `TimeTracker` class from `src/background.ts` of the
TimeScope browser extension, together with theorems checking the repository's
specification against it.

The repository contains two drafts of the tracking logic. The first draft
(with a debug log) uses a commit threshold of 1000 ms; the second draft uses
2000 ms and has no debug log. Both are embedded below where they differ
(`recordCurrentSession` vs `recordCurrentSession2`).

Modelling conventions:
* JavaScript objects used as string-keyed dictionaries (`result[today]`,
  `dailyData[domain]`) become association lists `List (String × α)` with
  `lookupKey` for property reads and `setKey` for property writes
  (`setKey` updates the first matching key in place, preserving insertion
  order, and appends at the end when the key is absent — exactly the JS
  object semantics used by `Object.entries`).
* `Date.now()` becomes an explicit `now : Nat` argument; the local calendar
  date used by `getTodayKey` becomes an explicit `LocalDate` argument with
  JavaScript conventions (`month` is 0-based as in `Date.getMonth`).
* `new URL(url)` is a host API; it becomes an explicit parser argument
  `parseURL : String → Option URLObj` returning the `protocol` and
  `hostname` components (`none` models a parse exception).
* `await chrome.tabs.get(tabId)` becomes an explicit argument
  `tabResult : Except String TabInfo`; `.error` models the rejected promise
  caught by the `try/catch` in `handleTabChange`. `TabInfo.url = none`
  models `tab.url` being `undefined`.
* `chrome.storage.local` failures become an explicit `storeOk : Bool`
  argument to `addTimeToStorage`: when `false` the `try/catch` there
  swallows the error and the store is unchanged.
* All JS exceptions are caught by the source's `try/catch` blocks, so every
  embedded handler is a total Lean function.
-/

/-- Property read on a JS object viewed as an association list
(`obj[key]`, `undefined` ↦ `none`). -/
def lookupKey {α : Type} : List (String × α) → String → Option α
  | [], _ => none
  | (k', v) :: rest, k => if k' = k then some v else lookupKey rest k

/-- Property write on a JS object viewed as an association list
(`obj[key] = v`): replaces the first binding of `key` in place, or appends
a new binding at the end, matching JS property insertion order. -/
def setKey {α : Type} : List (String × α) → String → α → List (String × α)
  | [], k, v => [(k, v)]
  | (k', v') :: rest, k, v =>
    if k' = k then (k, v) :: rest else (k', v') :: setKey rest k v

/-- The `DailyData` interface of `types.ts`: domain → accumulated
milliseconds for one day, as a JS object (insertion-ordered). -/
abbrev DailyData : Type := List (String × Nat)

/-- The `chrome.storage.local` contents relevant to the tracker
(`StorageData` of `types.ts`): day key `YYYY-MM-DD` → `DailyData`. -/
abbrev Store : Type := List (String × DailyData)

/-- The `DomainData` interface of `types.ts`. -/
structure DomainData where
  domain : String
  timeSpent : Nat
  deriving DecidableEq, Repr

/-- One entry of the first draft's debug log (`DebugLogEntry` of
`types.ts`; the free-form `data` payload is not modelled). -/
structure DebugLogEntry where
  timestamp : Nat
  message : String
  type : String
  deriving DecidableEq, Repr

/-- The `currentTab` record of the `TimeTracker` class. -/
structure TrackedTab where
  tabId : Nat
  domain : String
  startTime : Nat
  deriving DecidableEq, Repr

/-- Mutable state of a `TimeTracker` instance (first draft), together with
the extension's storage area: `currentTab`, `isWindowFocused`, `debugLogs`
and the `chrome.storage.local` contents. -/
structure TrackerState where
  currentTab : Option TrackedTab
  isWindowFocused : Bool
  debugLogs : List DebugLogEntry
  store : Store
  deriving DecidableEq, Repr

/-- The `MAX_DEBUG_LOGS` constant of the first draft. -/
def MAX_DEBUG_LOGS : Nat := 100

/-- The `chrome.windows.WINDOW_ID_NONE` sentinel. -/
def WINDOW_ID_NONE : Int := -1

/-- A tab record as returned by `chrome.tabs.get`: only the `url` field is
consumed by the tracker. `none` models `tab.url === undefined`. -/
structure TabInfo where
  url : Option String
  deriving DecidableEq, Repr

/-- The result of `new URL(url)`: the `protocol` and `hostname` components. -/
structure URLObj where
  protocol : String
  hostname : String
  deriving DecidableEq, Repr

/-- JS truthiness of `tab.url` (`undefined` and `""` are falsy). -/
def urlTruthy : Option String → Bool
  | none => false
  | some u => u ≠ ""

/-- `TimeTracker.addDebugLog` (first draft): `unshift` the new entry, then
keep only the first `MAX_DEBUG_LOGS` entries. The `console.log` and the
`broadcastLogEntry` call have no effect on the modelled state. -/
def addDebugLog (s : TrackerState) (timestamp : Nat) (type message : String) :
    TrackerState :=
  let logs := { timestamp := timestamp, message := message, type := type } :: s.debugLogs
  let logs := if logs.length > MAX_DEBUG_LOGS then logs.take MAX_DEBUG_LOGS else logs
  { s with debugLogs := logs }

/-- `TimeTracker.getDebugLogs`: returns `[...this.debugLogs]`, a copy of the
log array (copying is the identity on immutable lists). -/
def getDebugLogs (s : TrackerState) : List DebugLogEntry :=
  s.debugLogs

/-- `TimeTracker.extractDomain` (identical in both drafts): parse the URL;
return `null` on a parse failure or for `chrome:` / `chrome-extension:`
protocols, and the hostname verbatim otherwise. -/
def extractDomain (parseURL : String → Option URLObj) (url : String) :
    Option String :=
  match parseURL url with
  | none => none
  | some urlObj =>
    if urlObj.protocol = "chrome:" ∨ urlObj.protocol = "chrome-extension:" then
      none
    else
      some urlObj.hostname

/-- `TimeTracker.addTimeToStorage` (identical in both drafts): read
`store[today]` (absent ⇒ `{}`), add `timeSpent` to `dailyData[domain]`
(absent ⇒ `0`), write back under `today`. `storeOk = false` models the
storage call throwing: the `catch` logs and leaves the store unchanged. -/
def addTimeToStorage (storeOk : Bool) (store : Store) (today domain : String)
    (timeSpent : Nat) : Store :=
  if storeOk then
    let dailyData : DailyData := (lookupKey store today).getD []
    let dailyData := setKey dailyData domain
      ((lookupKey dailyData domain).getD 0 + timeSpent)
    setKey store today dailyData
  else
    store

/-- `TimeTracker.recordCurrentSession` (first draft, threshold 1000 ms):
if a tab is current, log, and commit `now - startTime` to storage when it
is at least 1000 ms. `currentTab` is never modified here. -/
def recordCurrentSession (s : TrackerState) (now : Nat) (today : String)
    (storeOk : Bool) : TrackerState :=
  match s.currentTab with
  | none => addDebugLog s now "session_record" "No current tab to record"
  | some tab =>
    let timeSpent := now - tab.startTime
    let s := addDebugLog s now "session_record" "Recording session"
    if timeSpent ≥ 1000 then
      { s with store := addTimeToStorage storeOk s.store today tab.domain timeSpent }
    else
      s

/-- `TimeTracker.recordCurrentSession` (second draft, threshold 2000 ms,
no debug log). -/
def recordCurrentSession2 (s : TrackerState) (now : Nat) (today : String)
    (storeOk : Bool) : TrackerState :=
  match s.currentTab with
  | none => s
  | some tab =>
    let timeSpent := now - tab.startTime
    if timeSpent ≥ 2000 then
      { s with store := addTimeToStorage storeOk s.store today tab.domain timeSpent }
    else
      s

/-- `TimeTracker.handleTabChange` (first draft). Ignores the event when the
window is unfocused; otherwise records the previous session, then fetches
the tab (`tabResult`): on failure, logs an error and clears `currentTab`;
on success with a truthy `tab.url`, starts tracking the extracted domain or
clears `currentTab` when the domain is untrackable. When `tab.url` is falsy
the `if (tab.url)` guard skips the whole block and `currentTab` is left
untouched. -/
def handleTabChange (parseURL : String → Option URLObj) (s : TrackerState)
    (tabId now : Nat) (today : String) (storeOk : Bool)
    (tabResult : Except String TabInfo) : TrackerState :=
  if !s.isWindowFocused then
    addDebugLog s now "tab_change" "Tab change ignored - window not focused"
  else
    let s := recordCurrentSession s now today storeOk
    match tabResult with
    | .error _ =>
      let s := addDebugLog s now "error" "Error getting tab info during tab change"
      { s with currentTab := none }
    | .ok tab =>
      if urlTruthy tab.url then
        let url := tab.url.getD ""
        match extractDomain parseURL url with
        | some domain =>
          let s := { s with currentTab := some { tabId := tabId, domain := domain, startTime := now } }
          addDebugLog s now "tab_change" "Started tracking new tab"
        | none =>
          let s := { s with currentTab := none }
          addDebugLog s now "tab_change" "Tab change - invalid domain, stopped tracking"
      else
        s

/-- The `chrome.tabs.onActivated` listener (first draft): log, then
`handleTabChange(activeInfo.tabId)` unconditionally. -/
def onTabActivated (parseURL : String → Option URLObj) (s : TrackerState)
    (tabId now : Nat) (today : String) (storeOk : Bool)
    (tabResult : Except String TabInfo) : TrackerState :=
  handleTabChange parseURL (addDebugLog s now "tab_change" "Tab activated")
    tabId now today storeOk tabResult

/-- The `chrome.tabs.onUpdated` listener (first draft): react only when
`changeInfo.status === 'complete' && tab.active && isWindowFocused`. -/
def onTabUpdated (parseURL : String → Option URLObj) (s : TrackerState)
    (tabId : Nat) (statusComplete tabActive : Bool) (now : Nat)
    (today : String) (storeOk : Bool) (tabResult : Except String TabInfo) :
    TrackerState :=
  if statusComplete && tabActive && s.isWindowFocused then
    handleTabChange parseURL (addDebugLog s now "tab_change" "Tab URL updated")
      tabId now today storeOk tabResult
  else
    s

/-- The `chrome.windows.onFocusChanged` listener (first draft). On
`WINDOW_ID_NONE`: log, clear the focus flag, record the session, clear
`currentTab`. Otherwise: set the focus flag, log, query the active tab of
the focused window (`queryResult`) and, when one is found, run
`handleTabChange` on it. -/
def onWindowFocusChanged (parseURL : String → Option URLObj)
    (s : TrackerState) (windowId : Int) (now : Nat) (today : String)
    (storeOk : Bool) (queryResult : Option Nat)
    (tabResult : Except String TabInfo) : TrackerState :=
  if windowId = WINDOW_ID_NONE then
    let s := addDebugLog s now "focus_change" "Browser lost focus"
    let s := { s with isWindowFocused := false }
    let s := recordCurrentSession s now today storeOk
    { s with currentTab := none }
  else
    let s := { s with isWindowFocused := true }
    let s := addDebugLog s now "focus_change" "Browser gained focus"
    match queryResult with
    | some activeTabId =>
      let s := addDebugLog s now "focus_change" "Active tab found after focus gain"
      handleTabChange parseURL s activeTabId now today storeOk tabResult
    | none =>
      addDebugLog s now "focus_change" "No active tab found after focus gain"

/-- A JS `Date` reduced to the local calendar components `getTodayKey`
reads: `getFullYear`, `getMonth` (0-based) and `getDate`. -/
structure LocalDate where
  year : Nat
  month : Nat
  day : Nat
  deriving DecidableEq, Repr

/-- `String.padStart(2, '0')`. -/
def padStart2 (str : String) : String :=
  if str.length < 2 then String.mk (List.replicate (2 - str.length) '0') ++ str
  else str

/-- `TimeTracker.getTodayKey` (identical in both drafts):
`year + '-' + pad(month+1) + '-' + pad(day)`. -/
def getTodayKey (d : LocalDate) : String :=
  toString d.year ++ "-" ++ padStart2 (toString (d.month + 1)) ++ "-" ++
    padStart2 (toString d.day)

/-- `TimeTracker.getTodayData` (identical in both drafts): read today's
`DailyData` (absent ⇒ `{}`), project `Object.entries` to `DomainData`
records and sort by `timeSpent` descending (the JS comparator
`(a, b) => b.timeSpent - a.timeSpent`). `readFails = true` models the
storage read throwing: the `catch` returns `[]`. -/
def getTodayData (store : Store) (d : LocalDate) (readFails : Bool) :
    List DomainData :=
  if readFails then []
  else
    let today := getTodayKey d
    let dailyData : DailyData := (lookupKey store today).getD []
    (dailyData.map fun p => { domain := p.1, timeSpent := p.2 }).mergeSort
      (fun a b => b.timeSpent ≤ a.timeSpent)

/-! ## Concrete fixtures for evaluations and witnesses -/

/-- A concrete URL parser fragment for evaluating the tracker on sample
URLs, mirroring the browser URL parser on three inputs. -/
def parseEx : String → Option URLObj := fun url =>
  if url = "https://www.Ex.com/" then some { protocol := "https:", hostname := "www.Ex.com" }
  else if url = "chrome://settings" then some { protocol := "chrome:", hostname := "settings" }
  else if url = "https://b.com/" then some { protocol := "https:", hostname := "b.com" }
  else none

/-- A focused tracker state with an open interval on `a.com` since time 0. -/
def sEx : TrackerState :=
  { currentTab := some { tabId := 1, domain := "a.com", startTime := 0 }
    isWindowFocused := true
    debugLogs := []
    store := [] }

/-- The same state with the window unfocused. -/
def sExUnfocused : TrackerState :=
  { sEx with isWindowFocused := false }

/-! ## Frame lemmas -/

/-- Logging changes only the `debugLogs` field. -/
theorem addDebugLog_currentTab (s : TrackerState) (t : Nat) (ty m : String) :
    (addDebugLog s t ty m).currentTab = s.currentTab := rfl

theorem addDebugLog_store (s : TrackerState) (t : Nat) (ty m : String) :
    (addDebugLog s t ty m).store = s.store := rfl

theorem addDebugLog_focus (s : TrackerState) (t : Nat) (ty m : String) :
    (addDebugLog s t ty m).isWindowFocused = s.isWindowFocused := rfl

/-- `recordCurrentSession` never touches `currentTab`. -/
theorem recordCurrentSession_currentTab (s : TrackerState) (now : Nat)
    (today : String) (storeOk : Bool) :
    (recordCurrentSession s now today storeOk).currentTab = s.currentTab := by
  unfold recordCurrentSession
  cases htab : s.currentTab with
  | none => simpa [addDebugLog] using htab
  | some tab => dsimp only; split <;> simpa [addDebugLog] using htab

/-- `recordCurrentSession` never touches `isWindowFocused`. -/
theorem recordCurrentSession_focus (s : TrackerState) (now : Nat)
    (today : String) (storeOk : Bool) :
    (recordCurrentSession s now today storeOk).isWindowFocused = s.isWindowFocused := by
  unfold recordCurrentSession
  cases htab : s.currentTab with
  | none => simp [addDebugLog]
  | some tab => dsimp only; split <;> simp [addDebugLog]

/-- Store effect of `recordCurrentSession`: commit exactly when an interval
is present and its elapsed time meets the 1000 ms threshold. -/
theorem recordCurrentSession_store (s : TrackerState) (now : Nat)
    (today : String) (storeOk : Bool) :
    (recordCurrentSession s now today storeOk).store =
      match s.currentTab with
      | none => s.store
      | some tab =>
        if 1000 ≤ now - tab.startTime then
          addTimeToStorage storeOk s.store today tab.domain (now - tab.startTime)
        else
          s.store := by
  unfold recordCurrentSession
  cases htab : s.currentTab with
  | none => simp [addDebugLog]
  | some tab =>
    dsimp only
    split <;> simp [addDebugLog]

/-! ## Claim theorems -/

/-- C2: closing an interval whose elapsed time is strictly below the commit
threshold (1000 ms in the first draft, 2000 ms in the second) writes
nothing: the whole store — every domain under every day key — is unchanged
by the close. -/
theorem recordCurrentSession_below_threshold (s : TrackerState) (now : Nat)
    (today : String) (storeOk : Bool) (tab : TrackedTab)
    (htab : s.currentTab = some tab) :
    (now - tab.startTime < 1000 →
      (recordCurrentSession s now today storeOk).store = s.store) ∧
    (now - tab.startTime < 2000 →
      (recordCurrentSession2 s now today storeOk).store = s.store) := by
  constructor
  · intro h
    unfold recordCurrentSession
    rw [htab]
    dsimp only
    rw [if_neg (by omega)]
    simp [addDebugLog]
  · intro h
    unfold recordCurrentSession2
    rw [htab]
    dsimp only
    rw [if_neg (by omega)]

theorem recordCurrentSession_below_threshold_witness :
    ((recordCurrentSession sEx 500 "2025-09-01" true).store = sEx.store) ∧
    ((recordCurrentSession2 sEx 500 "2025-09-01" true).store = sEx.store) := by
  have h := recordCurrentSession_below_threshold sEx 500 "2025-09-01" true
    { tabId := 1, domain := "a.com", startTime := 0 } rfl
  exact ⟨h.1 (by decide), h.2 (by decide)⟩

/-- C7: `getTodayData` is a total function — no exception reaches its
caller — and a failing storage read degrades to the empty sequence. -/
theorem getTodayData_read_failure (store : Store) (d : LocalDate) :
    getTodayData store d true = [] := rfl

/-- C1: evaluation at the failing input. With the window focused and an
interval open on `a.com` since time 0, a tab change at time 5000 whose tab
fetch succeeds but yields no URL leaves `currentTab` holding the old
interval — it is not absent after the event; and the close step itself
(`recordCurrentSession`) also leaves `currentTab` in place, so at the
point "after the close step completes" the interval is never absent. -/
theorem handleTabChange_noUrl_keeps_stale_interval :
    ((handleTabChange parseEx sEx 2 5000 "2025-09-01" true
        (.ok { url := none })).currentTab =
      some { tabId := 1, domain := "a.com", startTime := 0 }) ∧
    ((recordCurrentSession sEx 5000 "2025-09-01" true).currentTab =
      some { tabId := 1, domain := "a.com", startTime := 0 }) := by
  constructor <;> rfl

/-- C4: focus gating — while the window is unfocused, neither a
tab-activated nor a tab-updated event changes `currentTab` or the store
(the first draft only appends debug log entries). -/
theorem focus_gating (parseURL : String → Option URLObj) (s : TrackerState)
    (tabId : Nat) (statusComplete tabActive : Bool) (now : Nat)
    (today : String) (storeOk : Bool) (tabResult : Except String TabInfo)
    (hfocus : s.isWindowFocused = false) :
    ((onTabActivated parseURL s tabId now today storeOk tabResult).currentTab
        = s.currentTab) ∧
    ((onTabActivated parseURL s tabId now today storeOk tabResult).store
        = s.store) ∧
    ((onTabUpdated parseURL s tabId statusComplete tabActive now today storeOk
        tabResult).currentTab = s.currentTab) ∧
    ((onTabUpdated parseURL s tabId statusComplete tabActive now today storeOk
        tabResult).store = s.store) := by
  unfold onTabActivated onTabUpdated handleTabChange
  simp [addDebugLog, hfocus]

theorem focus_gating_witness :
    ((onTabActivated parseEx sExUnfocused 2 5000 "2025-09-01" true
        (.ok { url := some "https://b.com/" })).currentTab
        = sExUnfocused.currentTab) ∧
    ((onTabActivated parseEx sExUnfocused 2 5000 "2025-09-01" true
        (.ok { url := some "https://b.com/" })).store = sExUnfocused.store) ∧
    ((onTabUpdated parseEx sExUnfocused 2 true true 5000 "2025-09-01" true
        (.ok { url := some "https://b.com/" })).currentTab
        = sExUnfocused.currentTab) ∧
    ((onTabUpdated parseEx sExUnfocused 2 true true 5000 "2025-09-01" true
        (.ok { url := some "https://b.com/" })).store = sExUnfocused.store) :=
  focus_gating parseEx sExUnfocused 2 true true 5000 "2025-09-01" true
    (.ok { url := some "https://b.com/" }) rfl

/-- C5: on the `WINDOW_ID_NONE` sentinel, whatever the prior state, the
tracker clears the focus flag, commits the current interval exactly when
one is present with elapsed time at or above the 1000 ms threshold, and
ends with `currentTab` absent — no new interval is opened. -/
theorem onWindowFocusChanged_none_spec (parseURL : String → Option URLObj)
    (s : TrackerState) (now : Nat) (today : String) (storeOk : Bool)
    (queryResult : Option Nat) (tabResult : Except String TabInfo) :
    ((onWindowFocusChanged parseURL s WINDOW_ID_NONE now today storeOk
        queryResult tabResult).isWindowFocused = false) ∧
    ((onWindowFocusChanged parseURL s WINDOW_ID_NONE now today storeOk
        queryResult tabResult).currentTab = none) ∧
    ((onWindowFocusChanged parseURL s WINDOW_ID_NONE now today storeOk
        queryResult tabResult).store =
      match s.currentTab with
      | none => s.store
      | some tab =>
        if 1000 ≤ now - tab.startTime then
          addTimeToStorage storeOk s.store today tab.domain (now - tab.startTime)
        else
          s.store) := by
  unfold onWindowFocusChanged
  rw [if_pos rfl]
  refine ⟨?_, rfl, ?_⟩
  · show (recordCurrentSession _ _ _ _).isWindowFocused = false
    rw [recordCurrentSession_focus]
  · show (recordCurrentSession _ _ _ _).store = _
    rw [recordCurrentSession_store]
    rfl

/-- C9: when the tab fetch fails during a focused tab change, the failure
is absorbed (the embedded handler is total — nothing escapes), an error
entry is logged at the head of the debug log, and `currentTab` is set to
absent. -/
theorem handleTabChange_fetch_error (parseURL : String → Option URLObj)
    (s : TrackerState) (tabId now : Nat) (today : String) (storeOk : Bool)
    (err : String) (hfocus : s.isWindowFocused = true) :
    ((handleTabChange parseURL s tabId now today storeOk
        (.error err)).currentTab = none) ∧
    ((handleTabChange parseURL s tabId now today storeOk
        (.error err)).debugLogs.head? =
      some { timestamp := now
             message := "Error getting tab info during tab change"
             type := "error" }) := by
  unfold handleTabChange
  rw [hfocus]
  refine ⟨rfl, ?_⟩
  show (addDebugLog _ _ _ _).debugLogs.head? = _
  unfold addDebugLog
  dsimp only
  split
  · rw [show MAX_DEBUG_LOGS = 99 + 1 from rfl, List.take_succ_cons]
    rfl
  · rfl

theorem handleTabChange_fetch_error_witness :
    ((handleTabChange parseEx sEx 2 5000 "2025-09-01" true
        (.error "No tab with id 2")).currentTab = none) ∧
    ((handleTabChange parseEx sEx 2 5000 "2025-09-01" true
        (.error "No tab with id 2")).debugLogs.head? =
      some { timestamp := 5000
             message := "Error getting tab info during tab change"
             type := "error" }) :=
  handleTabChange_fetch_error parseEx sEx 2 5000 "2025-09-01" true
    "No tab with id 2" rfl

/-! ## Association-list lemmas for the storage model -/

theorem lookupKey_setKey_self {α : Type} (l : List (String × α)) (k : String)
    (v : α) : lookupKey (setKey l k v) k = some v := by
  induction l with
  | nil => simp [setKey, lookupKey]
  | cons p rest ih =>
    obtain ⟨k', v'⟩ := p
    unfold setKey
    by_cases h : k' = k
    · rw [if_pos h]
      simp [lookupKey]
    · rw [if_neg h]
      simp [lookupKey, h, ih]

theorem lookupKey_setKey_ne {α : Type} (l : List (String × α)) (k k₂ : String)
    (v : α) (h : k₂ ≠ k) : lookupKey (setKey l k v) k₂ = lookupKey l k₂ := by
  induction l with
  | nil => simp [setKey, lookupKey, Ne.symm h]
  | cons p rest ih =>
    obtain ⟨k', v'⟩ := p
    unfold setKey
    by_cases hk : k' = k
    · rw [if_pos hk]
      subst hk
      simp [lookupKey, Ne.symm h]
    · rw [if_neg hk]
      simp [lookupKey, ih]

/-- Milliseconds stored for `(day, domain)`, with absent day or domain read
as 0 — the quantity `addTimeToStorage` accumulates. -/
def storedMs (store : Store) (day domain : String) : Nat :=
  (lookupKey ((lookupKey store day).getD []) domain).getD 0

/-- C8: a successful commit of `elapsed` milliseconds to domain `domain`
under day key `today` makes the stored value for `(today, domain)` its
previous value (0 when absent) plus `elapsed`, leaves every other domain
under `today` and every other day key unchanged, and in consequence no
per-domain daily total ever decreases. -/
theorem addTimeToStorage_spec (store : Store) (today domain : String)
    (elapsed : Nat) :
    (storedMs (addTimeToStorage true store today domain elapsed) today domain
      = storedMs store today domain + elapsed) ∧
    (∀ d, d ≠ domain →
      lookupKey ((lookupKey (addTimeToStorage true store today domain elapsed)
          today).getD []) d
        = lookupKey ((lookupKey store today).getD []) d) ∧
    (∀ day, day ≠ today →
      lookupKey (addTimeToStorage true store today domain elapsed) day
        = lookupKey store day) ∧
    (∀ day d, storedMs store day d
      ≤ storedMs (addTimeToStorage true store today domain elapsed) day d) := by
  have hself :
      storedMs (addTimeToStorage true store today domain elapsed) today domain
        = storedMs store today domain + elapsed := by
    unfold storedMs addTimeToStorage
    rw [if_pos rfl]
    dsimp only
    rw [lookupKey_setKey_self]
    simp [lookupKey_setKey_self]
  have hdom : ∀ d, d ≠ domain →
      lookupKey ((lookupKey (addTimeToStorage true store today domain elapsed)
          today).getD []) d
        = lookupKey ((lookupKey store today).getD []) d := by
    intro d hd
    unfold addTimeToStorage
    rw [if_pos rfl]
    dsimp only
    rw [lookupKey_setKey_self]
    simp [lookupKey_setKey_ne _ _ _ _ hd]
  have hday : ∀ day, day ≠ today →
      lookupKey (addTimeToStorage true store today domain elapsed) day
        = lookupKey store day := by
    intro day hday
    unfold addTimeToStorage
    rw [if_pos rfl]
    dsimp only
    rw [lookupKey_setKey_ne _ _ _ _ hday]
  refine ⟨hself, hdom, hday, ?_⟩
  intro day d
  by_cases hd : day = today
  · subst hd
    by_cases hdd : d = domain
    · subst hdd
      rw [hself]
      omega
    · unfold storedMs
      rw [hdom d hdd]
  · unfold storedMs
    rw [hday day hd]

theorem addTimeToStorage_spec_witness :
    (storedMs (addTimeToStorage true [("2025-09-01", [("a.com", 700)])]
        "2025-09-01" "a.com" 1300) "2025-09-01" "a.com"
      = storedMs [("2025-09-01", [("a.com", 700)])] "2025-09-01" "a.com" + 1300) ∧
    (lookupKey ((lookupKey (addTimeToStorage true
          [("2025-09-01", [("a.com", 700)])] "2025-09-01" "a.com" 1300)
          "2025-09-01").getD []) "b.com"
      = lookupKey ((lookupKey ([("2025-09-01", [("a.com", 700)])] : Store)
          "2025-09-01").getD []) "b.com") ∧
    (lookupKey (addTimeToStorage true [("2025-09-01", [("a.com", 700)])]
          "2025-09-01" "a.com" 1300) "2025-08-31"
      = lookupKey ([("2025-09-01", [("a.com", 700)])] : Store) "2025-08-31") ∧
    (storedMs [("2025-09-01", [("a.com", 700)])] "2025-08-31" "x.org"
      ≤ storedMs (addTimeToStorage true [("2025-09-01", [("a.com", 700)])]
          "2025-09-01" "a.com" 1300) "2025-08-31" "x.org") := by
  have h := addTimeToStorage_spec [("2025-09-01", [("a.com", 700)])]
    "2025-09-01" "a.com" 1300
  exact ⟨h.1, h.2.1 "b.com" (by decide), h.2.2.1 "2025-08-31" (by decide),
    h.2.2.2 "2025-08-31" "x.org"⟩

/-- C3: `extractDomain` returns absent exactly when the URL fails to parse
or its protocol is `chrome:` or `chrome-extension:`; otherwise it returns
the parsed hostname verbatim (no case normalization, no `www.` stripping);
and a focused tab change to a tab whose URL has such an internal protocol
never leaves a tracked interval. -/
theorem extractDomain_spec (parseURL : String → Option URLObj) (url : String) :
    (extractDomain parseURL url = none ↔
      parseURL url = none ∨ ∃ u, parseURL url = some u ∧
        (u.protocol = "chrome:" ∨ u.protocol = "chrome-extension:")) ∧
    (∀ u, parseURL url = some u → u.protocol ≠ "chrome:" →
      u.protocol ≠ "chrome-extension:" →
      extractDomain parseURL url = some u.hostname) ∧
    (∀ (s : TrackerState) (tabId now : Nat) (today : String) (storeOk : Bool)
      (u : URLObj), s.isWindowFocused = true → url ≠ "" →
      parseURL url = some u →
      (u.protocol = "chrome:" ∨ u.protocol = "chrome-extension:") →
      (handleTabChange parseURL s tabId now today storeOk
        (.ok { url := some url })).currentTab = none) := by
  refine ⟨?_, ?_, ?_⟩
  · unfold extractDomain
    cases hp : parseURL url with
    | none => simp
    | some u =>
      dsimp only
      split
      · simp_all
      · simp_all
  · intro u hu h1 h2
    unfold extractDomain
    rw [hu]
    dsimp only
    rw [if_neg (by tauto)]
  · intro s tabId now today storeOk u hfocus hne hu hproto
    have hnone : extractDomain parseURL url = none := by
      unfold extractDomain
      rw [hu]
      dsimp only
      rw [if_pos hproto]
    unfold handleTabChange
    rw [hfocus]
    simp [urlTruthy, hne, hnone, addDebugLog]

theorem extractDomain_spec_witness :
    (extractDomain parseEx "https://www.Ex.com/" = some "www.Ex.com") ∧
    ((handleTabChange parseEx sEx 2 5000 "2025-09-01" true
        (.ok { url := some "chrome://settings" })).currentTab = none) := by
  constructor
  · exact (extractDomain_spec parseEx "https://www.Ex.com/").2.1
      { protocol := "https:", hostname := "www.Ex.com" } rfl
      (by decide) (by decide)
  · exact (extractDomain_spec parseEx "chrome://settings").2.2 sEx 2 5000
      "2025-09-01" true { protocol := "chrome:", hostname := "settings" }
      rfl (by decide) rfl (Or.inl rfl)

/-! ## Day-key formatting -/

/-- `padStart(2, '0')` on the decimal representation of a number below 100
agrees with prefixing `"0"` exactly below 10. -/
theorem padStart2_toString_small : ∀ n : Fin 100,
    padStart2 (toString (n : Nat)) =
      if (n : Nat) < 10 then "0" ++ toString (n : Nat)
      else toString (n : Nat) := by decide

/-- Day-key format as the spec words it: the year, a dash, the zero-padded
two-digit month, a dash, the zero-padded two-digit day. Stated
independently of `padStart2` so that agreement with `getTodayKey` is a
genuine comparison. -/
def specDayKey (d : LocalDate) : String :=
  toString d.year ++ "-" ++
    (if d.month + 1 < 10 then "0" ++ toString (d.month + 1)
     else toString (d.month + 1)) ++ "-" ++
    (if d.day < 10 then "0" ++ toString d.day else toString d.day)

/-- On calendar-range dates, the code's key agrees with the spec's
zero-padded `YYYY-MM-DD` format. -/
theorem getTodayKey_eq_specDayKey (d : LocalDate) (hm : d.month < 12)
    (hd : d.day ≤ 31) : getTodayKey d = specDayKey d := by
  unfold getTodayKey specDayKey
  have h1 := padStart2_toString_small ⟨d.month + 1, by omega⟩
  have h2 := padStart2_toString_small ⟨d.day, by omega⟩
  simp only [Fin.val_mk] at h1 h2
  rw [h1, h2]

/-- C6: `getTodayData` reads the store at today's key — formatted as the
spec's zero-padded `YYYY-MM-DD` local date — treats an absent day entry as
the empty mapping, returns one `{domain, timeSpent}` record per stored
domain (a permutation of the day's entries), and sorts the result by
`timeSpent` descending. -/
theorem getTodayData_spec (store : Store) (d : LocalDate)
    (hm : d.month < 12) (hd : d.day ≤ 31) :
    (getTodayKey d = specDayKey d) ∧
    (lookupKey store (getTodayKey d) = none → getTodayData store d false = []) ∧
    (List.Perm (getTodayData store d false)
      (((lookupKey store (getTodayKey d)).getD []).map
        (fun p => { domain := p.1, timeSpent := p.2 }))) ∧
    (List.Sorted (fun a b : DomainData => b.timeSpent ≤ a.timeSpent)
      (getTodayData store d false)) := by
  refine ⟨getTodayKey_eq_specDayKey d hm hd, ?_, ?_, ?_⟩
  · intro h
    simp [getTodayData, h]
  · simpa [getTodayData] using
      List.mergeSort_perm
        (((lookupKey store (getTodayKey d)).getD []).map
          (fun p => ({ domain := p.1, timeSpent := p.2 } : DomainData))) _
  · have hs := @List.sorted_mergeSort DomainData
      (fun a b : DomainData => decide (b.timeSpent ≤ a.timeSpent))
      (fun a b c h1 h2 => by
        simp only [decide_eq_true_eq] at *
        omega)
      (fun a b => by
        rcases Nat.le_total b.timeSpent a.timeSpent with h | h <;> simp [h])
      (((lookupKey store (getTodayKey d)).getD []).map
        (fun p => ({ domain := p.1, timeSpent := p.2 } : DomainData)))
    unfold getTodayData
    simp only [Bool.false_eq_true, if_false]
    exact hs.imp (fun h => by simpa using h)

/-- A sample store for evaluating `getTodayData`. -/
def storeW : Store := [("2025-09-09", [("a.com", 1000), ("b.com", 2000)])]

theorem getTodayData_spec_witness :
    (getTodayKey ⟨2025, 8, 9⟩ = specDayKey ⟨2025, 8, 9⟩) ∧
    (lookupKey storeW (getTodayKey ⟨2025, 8, 9⟩) = none →
      getTodayData storeW ⟨2025, 8, 9⟩ false = []) ∧
    (List.Perm (getTodayData storeW ⟨2025, 8, 9⟩ false)
      (((lookupKey storeW (getTodayKey ⟨2025, 8, 9⟩)).getD []).map
        (fun p => { domain := p.1, timeSpent := p.2 }))) ∧
    (List.Sorted (fun a b : DomainData => b.timeSpent ≤ a.timeSpent)
      (getTodayData storeW ⟨2025, 8, 9⟩ false)) :=
  getTodayData_spec storeW ⟨2025, 8, 9⟩ (by decide) (by decide)

/-! ## Debug-log ring buffer -/

/-- Truncating the tail of an append before `take n` is invisible to
`take n`. -/
theorem take_append_take {α : Type} (a : List α) : ∀ (n k : Nat), n ≤ k →
    ∀ (l : List α), (a ++ l.take k).take n = (a ++ l).take n := by
  induction a with
  | nil =>
    intro n k hnk l
    simp only [List.nil_append, List.take_take]
    rw [Nat.min_eq_left hnk]
  | cons x t ih =>
    intro n k hnk l
    cases n with
    | zero => simp
    | succ m =>
      simp only [List.cons_append, List.take_succ_cons]
      rw [ih m k (by omega) l]

/-- One `addDebugLog` call prepends the entry and clips to the cap. -/
theorem addDebugLog_debugLogs (s : TrackerState) (t : Nat) (ty m : String) :
    (addDebugLog s t ty m).debugLogs =
      ({ timestamp := t, message := m, type := ty } :: s.debugLogs).take
        MAX_DEBUG_LOGS := by
  unfold addDebugLog
  dsimp only
  split
  · rfl
  · rw [List.take_of_length_le (by omega)]

/-- A sequence of `addDebugLog` calls, given as `(timestamp, type, message)`
triples in call order. -/
def runDebugLogs (s : TrackerState) (events : List (Nat × String × String)) :
    TrackerState :=
  events.foldl (fun s e => addDebugLog s e.1 e.2.1 e.2.2) s

/-- The log entry produced by one `(timestamp, type, message)` call. -/
def mkLogEntry (e : Nat × String × String) : DebugLogEntry :=
  { timestamp := e.1, message := e.2.2, type := e.2.1 }

/-- Log contents after any call sequence: the entries newest first, clipped
to `MAX_DEBUG_LOGS`. -/
theorem runDebugLogs_debugLogs (events : List (Nat × String × String)) :
    ∀ s : TrackerState, s.debugLogs.length ≤ MAX_DEBUG_LOGS →
    (runDebugLogs s events).debugLogs =
      ((events.map mkLogEntry).reverse ++ s.debugLogs).take MAX_DEBUG_LOGS := by
  induction events with
  | nil =>
    intro s h
    simpa [runDebugLogs] using (List.take_of_length_le h).symm
  | cons e evs ih =>
    intro s h
    show (runDebugLogs (addDebugLog s e.1 e.2.1 e.2.2) evs).debugLogs = _
    rw [ih _ (by rw [addDebugLog_debugLogs]; exact List.length_take_le _ _)]
    rw [addDebugLog_debugLogs]
    rw [take_append_take _ MAX_DEBUG_LOGS MAX_DEBUG_LOGS (Nat.le_refl _)]
    simp [mkLogEntry, List.append_assoc]

/-- C10: after any sequence of `addDebugLog` calls from a state whose log
respects the cap, `getDebugLogs` returns exactly the logged entries newest
first, clipped to `MAX_DEBUG_LOGS = 100`; the returned value is the log
list itself (the source's `[...]` spread copy is the identity on immutable
lists, so callers cannot disturb the tracker's log through it). -/
theorem getDebugLogs_spec (s : TrackerState)
    (events : List (Nat × String × String))
    (h : s.debugLogs.length ≤ MAX_DEBUG_LOGS) :
    (getDebugLogs (runDebugLogs s events) =
      ((events.map mkLogEntry).reverse ++ s.debugLogs).take MAX_DEBUG_LOGS) ∧
    ((getDebugLogs (runDebugLogs s events)).length ≤ MAX_DEBUG_LOGS) := by
  have hrun := runDebugLogs_debugLogs events s h
  refine ⟨hrun, ?_⟩
  show (runDebugLogs s events).debugLogs.length ≤ MAX_DEBUG_LOGS
  rw [hrun]
  exact List.length_take_le _ _

theorem getDebugLogs_spec_witness :
    (getDebugLogs (runDebugLogs sEx [(1, "info", "a"), (2, "info", "b")]) =
      (([(1, "info", "a"), (2, "info", "b")].map mkLogEntry).reverse ++
        sEx.debugLogs).take MAX_DEBUG_LOGS) ∧
    ((getDebugLogs
        (runDebugLogs sEx [(1, "info", "a"), (2, "info", "b")])).length ≤
      MAX_DEBUG_LOGS) :=
  getDebugLogs_spec sEx [(1, "info", "a"), (2, "info", "b")] (by decide)
